import Mathlib

/-!
Verification of the valuation engine of the `property-search` repository.

The Python sources (`src/valuation.py`, `src/search.py`, `src/cache.py`) are
shallowly embedded below.  Python floats are modelled as exact rationals `ℚ`,
Python exceptions as `Except`, and the in-place mutation of `SearchParameters`
by `to_buy` / `to_rent` as explicit state passing.  The external
`scipy.interpolate.griddata` call is abstracted as an oracle.  Its full
outcome set (`GriddataOutcome` / `get_height_exc`) includes the
`scipy.spatial.QhullError` — a `RuntimeError` subclass — raised on degenerate
point geometry, which the `except ValueError` in `ValuationEngine.get_height`
does not catch, so that path propagates as an exception.  The restriction to
the outcomes the method does handle (`GridResult` / `get_height`) is used for
the claims that do not concern the interpolation exception path.  The external
JSON/Redis text layer is abstracted: the cache stores the structured payload
records that `_convert_valuations_to_payload` produces.
-/

namespace PropertySearch

/-- `src/search.py` `GeoLocation`: latitude/longitude pair. -/
structure GeoLocation where
  latitude : ℚ
  longitude : ℚ
deriving DecidableEq, Repr

/-- `src/search.py` `PurchaseCategory` enum (values "buy" / "rent"). -/
inductive PurchaseCategory where
  | BUY
  | RENT
deriving DecidableEq, Repr

/-- The `.value` of a `PurchaseCategory` member. -/
def PurchaseCategory.value : PurchaseCategory → String
  | .BUY => "buy"
  | .RENT => "rent"

/-- `src/search.py` `Property`: one listing. -/
structure Property where
  identifier : String
  display_address : String
  price : ℚ
  geo_location : GeoLocation
  purchase_category : PurchaseCategory
  image_url : String
deriving DecidableEq, Repr

/-- `src/valuation.py` `ValuationParameters`. -/
structure ValuationParameters where
  min_deposit : ℤ
  max_deposit : ℤ
  mortgage_length : ℕ
  mortgage_interest_rate : ℚ
  investment_increase : ℤ
  investment_deduction : ℤ
  rent_increase : ℤ
  rent_deduction : ℤ
deriving DecidableEq, Repr

/-- `src/valuation.py` `Valuation`: a scored purchase candidate. -/
structure Valuation where
  property : Property
  estimated_rental_income : ℚ
  return_on_investment : ℚ
deriving DecidableEq, Repr

/-- Python's `round(q, 2)` on an exact rational value: round to the nearest
multiple of 1/100, ties going to the even multiple (banker's rounding). -/
def pyRound2 (q : ℚ) : ℚ :=
  let s := q * 100
  let f : ℤ := ⌊s⌋
  if s - f < 1 / 2 then (f : ℚ) / 100
  else if 1 / 2 < s - f then ((f : ℚ) + 1) / 100
  else if f % 2 = 0 then (f : ℚ) / 100 else ((f : ℚ) + 1) / 100

/-- The fixed-rate amortization expression
`p * r * (1+r)^n / ((1+r)^n - 1)` from `ValuationEngine.get_score`. -/
def monthly_mortgage (p r : ℚ) (n : ℕ) : ℚ :=
  p * r * (1 + r) ^ n / ((1 + r) ^ n - 1)

/-- The two `ValueError`s that `ValuationEngine.get_score` can raise. -/
inductive ScoreError where
  | degenerateRate
  | degenerateCost
deriving DecidableEq, Repr

/-- `ValuationEngine.get_score` (src/valuation.py lines 158-181).  The rent
estimate that the Python method obtains from `self.get_height` at the
property's coordinates is passed in as `rent_price`. -/
def get_score (rent_price : ℚ) (property_price : ℚ)
    (vp : ValuationParameters) : Except ScoreError ℚ :=
  let deposit : ℚ := vp.max_deposit
  let r : ℚ := vp.mortgage_interest_rate / (12 * 100)
  let n : ℕ := vp.mortgage_length * 12
  let p : ℚ := max (property_price - deposit) 0
  if r = 0 then .error .degenerateRate
  else
    let monthly := monthly_mortgage p r n
    let net_rent_increase : ℚ := (vp.rent_increase : ℚ) - (vp.rent_deduction : ℚ)
    let net_investment_increase : ℚ :=
      (vp.investment_increase : ℚ) - (vp.investment_deduction : ℚ)
    let net_annual_income := (rent_price + net_rent_increase - monthly) * 12
    let cost := deposit + net_investment_increase
    if cost = 0 then .error .degenerateCost
    else .ok (pyRound2 (100 * net_annual_income / cost))

/-- `np.percentile(data, q)` with the default linear interpolation method:
sort ascending, let `h = q/100 * (n-1)`, and linearly interpolate between the
entries at positions `⌊h⌋` and `⌊h⌋ + 1`. -/
def percentile (data : List ℚ) (q : ℚ) : ℚ :=
  let s := data.mergeSort (fun a b => decide (a ≤ b))
  let h : ℚ := q / 100 * ((s.length : ℚ) - 1)
  let i : ℕ := (⌊h⌋).toNat
  let lo := s.getD i 0
  let hi := s.getD (i + 1) lo
  lo + (h - (⌊h⌋ : ℚ)) * (hi - lo)

/-- `remove_outliers` (src/valuation.py lines 282-292): keep the values inside
the inclusive IQR fence computed on the whole input. -/
def remove_outliers (data : List ℚ) (threshold : ℚ := 3 / 2) : List ℚ :=
  let q1 := percentile data 25
  let q3 := percentile data 75
  let iqr := q3 - q1
  let lower_bound := q1 - iqr * threshold
  let upper_bound := q3 + iqr * threshold
  data.filter (fun x => decide (lower_bound ≤ x) && decide (x ≤ upper_bound))

/-- `min` over a non-empty Python iterable (0 on the empty list, where the
Python built-in would raise). -/
def listMin : List ℚ → ℚ
  | [] => 0
  | x :: xs => xs.foldl min x

/-- `max` over a non-empty Python iterable (0 on the empty list, where the
Python built-in would raise). -/
def listMax : List ℚ → ℚ
  | [] => 0
  | x :: xs => xs.foldl max x

/-- The outcomes of a `scipy.interpolate.griddata(..., method='linear')`
query that `ValuationEngine.get_height` handles: an interpolated value, the
NaN produced outside the convex hull, and a `ValueError`.  Degenerate input
geometry is NOT among them: scipy signals it with `scipy.spatial.QhullError`,
a `RuntimeError` subclass that the method's `except ValueError` does not
catch; that outcome is modelled by `GriddataOutcome` / `get_height_exc`
below. -/
inductive GridResult where
  | val (v : ℚ)
  | nan
  | valueErr
deriving DecidableEq, Repr

/-- The full outcome set of a `scipy.interpolate.griddata(..., 'linear')`
query: an interpolated value inside the convex hull, NaN outside it, a
`ValueError` on malformed arguments, and a `scipy.spatial.QhullError` — a
`RuntimeError` subclass, not a `ValueError` — when the point set admits no
triangulation (all points coincident or collinear). -/
inductive GriddataOutcome where
  | val (v : ℚ)
  | nan
  | valueError
  | qhullError
deriving DecidableEq, Repr

/-- An exception that escapes `ValuationEngine.get_height`: its
`except ValueError` (src/valuation.py line 152) does not catch the
`QhullError` raised by scipy on degenerate point geometry, and neither does
the `except ValueError` in the `_get_valuation` loop (line 144). -/
inductive PyException where
  | qhullError
deriving DecidableEq, Repr

/-- The interpolation state built by `_get_valuation` (src/valuation.py lines
125-134): the rental sample points, the four bounding-box corners appended at
the mean price, the prices, and the mean price itself. -/
structure Estimator where
  points : List (ℚ × ℚ)
  values : List ℚ
  average_price : ℚ
deriving DecidableEq, Repr

/-- Lines 125-134 of `_get_valuation`: sample points from the (filtered)
rental listings, padded with the four corners of their bounding box, each
valued at the arithmetic mean price. -/
def build_estimator (rent_properties : List Property) : Estimator :=
  let pts := rent_properties.map
    (fun p => (p.geo_location.longitude, p.geo_location.latitude))
  let min_lon := listMin (rent_properties.map (fun p => p.geo_location.longitude))
  let max_lon := listMax (rent_properties.map (fun p => p.geo_location.longitude))
  let min_lat := listMin (rent_properties.map (fun p => p.geo_location.latitude))
  let max_lat := listMax (rent_properties.map (fun p => p.geo_location.latitude))
  let values := rent_properties.map (fun p => p.price)
  let average_price := values.sum / (values.length : ℚ)
  { points := pts ++ [(min_lon, min_lat), (max_lon, min_lat),
      (min_lon, max_lat), (max_lon, max_lat)],
    values := values ++ [average_price, average_price, average_price, average_price],
    average_price := average_price }

/-- The `ValueError`-handled fragment of `ValuationEngine.get_height`
(src/valuation.py lines 149-156): over the outcomes the method catches, a
`ValueError` or a NaN result falls back to the average price.  The uncaught
`QhullError` path is modelled by `get_height_exc`. -/
def get_height (g : ℚ → ℚ → GridResult) (average_price : ℚ) (x y : ℚ) : ℚ :=
  match g x y with
  | .val v => v
  | .nan => average_price
  | .valueErr => average_price

/-- `ValuationEngine.get_height` (src/valuation.py lines 149-156) over the
full `griddata` outcome set, with the exception path explicit: the
`except ValueError` at line 152 catches only `ValueError`, so a `QhullError`
from degenerate geometry escapes and propagates to the caller. -/
def get_height_exc (g : ℚ → ℚ → GriddataOutcome) (average_price : ℚ)
    (x y : ℚ) : Except PyException ℚ :=
  match g x y with
  | .val v => .ok v
  | .nan => .ok average_price
  | .valueError => .ok average_price
  | .qhullError => .error .qhullError

/-- Lines 120-123 of `_get_valuation`: keep the rental listings whose price
survived the outlier filter. -/
def filtered_rent (rent_properties : List Property) : List Property :=
  let rent_prices := rent_properties.map (fun p => p.price)
  let filtered_rent_prices := remove_outliers rent_prices
  rent_properties.filter (fun p => decide (p.price ∈ filtered_rent_prices))

/-- The body of the per-property loop of `_get_valuation` (lines 137-145):
estimate the rent at the candidate's coordinates and score it; a scoring
`ValueError` drops the candidate (`none`). -/
def valuation_of (rent_properties : List Property) (g : ℚ → ℚ → GridResult)
    (vp : ValuationParameters) (p : Property) : Option Valuation :=
  let E := build_estimator (filtered_rent rent_properties)
  let rent := get_height g E.average_price p.geo_location.longitude p.geo_location.latitude
  match get_score rent p.price vp with
  | .ok roi => some ⟨p, rent, roi⟩
  | .error _ => none

/-- Line 147 of `_get_valuation`:
`sorted(valuations, key=lambda valuation: -valuation.return_on_investment)`,
a stable sort ascending in `-roi`, i.e. descending in `roi`. -/
def rank (valuations : List Valuation) : List Valuation :=
  valuations.mergeSort
    (fun a b => decide (b.return_on_investment ≤ a.return_on_investment))

/-- `ValuationEngine._get_valuation` (src/valuation.py lines 116-147). -/
def _get_valuation (rent_properties buy_properties : List Property)
    (vp : ValuationParameters) (g : ℚ → ℚ → GridResult) : List Valuation :=
  if rent_properties.length = 0 ∨ buy_properties.length = 0 then []
  else rank (buy_properties.filterMap (valuation_of rent_properties g vp))

/-- The `geo_location` sub-dictionary of a serialized valuation record;
`none` models an absent key. -/
structure GeoPayload where
  latitude : Option ℚ
  longitude : Option ℚ
deriving DecidableEq, Repr

/-- One element of the JSON list produced by
`_convert_valuations_to_payload`; `none` fields model absent keys, so that
the mandatory-field checks of `_convert_payload_to_valuations` are visible. -/
structure PayloadRecord where
  identifier : Option String
  display_address : Option String
  price : Option ℚ
  geo_location : Option GeoPayload
  purchase_category : Option String
  estimated_rental_income : Option ℚ
  return_on_investment : Option ℚ
  image_url : Option String
deriving DecidableEq, Repr

/-- The `PurchaseCategory(str)` enum constructor: raises on an unknown value. -/
def parse_purchase_category (s : String) : Except String PurchaseCategory :=
  if s = "buy" then .ok .BUY
  else if s = "rent" then .ok .RENT
  else .error "invalid purchase category value"

/-- The per-record body of `_convert_payload_to_valuations`
(src/valuation.py lines 189-228): every field is mandatory. -/
def convert_obj_to_valuation (obj : PayloadRecord) : Except String Valuation := do
  let some identifier := obj.identifier
    | throw "property object is missing identifier key"
  let some display_address := obj.display_address
    | throw "property object is missing display_address key"
  let some price := obj.price
    | throw "property object is missing price key"
  let some geo := obj.geo_location
    | throw "property object is missing geo_location key"
  let some latitude := geo.latitude
    | throw "geo_location object is missing latitude key"
  let some longitude := geo.longitude
    | throw "geo_location object is missing longitude key"
  let some purchase_category_str := obj.purchase_category
    | throw "property object is missing purchase_category key"
  let some estimated_rental_income := obj.estimated_rental_income
    | throw "property object is missing estimated_rental_income key"
  let some return_on_investment := obj.return_on_investment
    | throw "property object is missing return_on_investment key"
  let some image_url := obj.image_url
    | throw "property object is missing image_url key"
  let purchase_category ← parse_purchase_category purchase_category_str
  pure
    { property :=
        { identifier := identifier
          display_address := display_address
          price := price
          geo_location := { latitude := latitude, longitude := longitude }
          purchase_category := purchase_category
          image_url := image_url }
      estimated_rental_income := estimated_rental_income
      return_on_investment := return_on_investment }

/-- `ValuationEngine._convert_payload_to_valuations`
(src/valuation.py lines 183-229): convert the records in order, aborting with
the first conversion error. -/
def _convert_payload_to_valuations : List PayloadRecord →
    Except String (List Valuation)
  | [] => .ok []
  | obj :: rest =>
    match convert_obj_to_valuation obj with
    | .error e => .error e
    | .ok v =>
      match _convert_payload_to_valuations rest with
      | .error e => .error e
      | .ok vs => .ok (v :: vs)

/-- `ValuationEngine._convert_valuations_to_payload`
(src/valuation.py lines 231-248). -/
def _convert_valuations_to_payload (valuations : List Valuation) :
    List PayloadRecord :=
  valuations.map fun v =>
    { identifier := some v.property.identifier
      display_address := some v.property.display_address
      price := some v.property.price
      geo_location := some
        { latitude := some v.property.geo_location.latitude
          longitude := some v.property.geo_location.longitude }
      purchase_category := some v.property.purchase_category.value
      estimated_rental_income := some v.estimated_rental_income
      return_on_investment := some v.return_on_investment
      image_url := some v.property.image_url }

/-- The state of the external Redis store, with the JSON text layer abstracted
away: keys map to the structured valuation payload. -/
def CacheStore : Type := String → Option (List PayloadRecord)

/-- `Cache.get` (src/cache.py lines 23-32). -/
def cache_get (store : CacheStore) (key : String) : Option (List PayloadRecord) :=
  store key

/-- `Cache.set` (src/cache.py lines 34-38).  The `expiry` TTL is handed to
Redis, whose clock-based expiry is outside this model. -/
def cache_set (store : CacheStore) (key : String) (value : List PayloadRecord)
    (expiry : ℕ) : CacheStore :=
  fun k => if k = key then some value else store k

/-- `src/search.py` `SearchParameters` (constructed fields, lines 156-185);
`none` models the empty-string defaults used for absent numeric filters. -/
structure SearchParameters where
  location_name : String
  location_id : String
  radius : ℚ
  min_price : Option ℤ
  max_price : Option ℤ
  min_bedrooms : Option ℤ
  max_bedrooms : Option ℤ
  max_days_since_added : Option ℤ
  property_types : List String
  must_have : List String
  dont_show : List String
  furnish_types : List String
  purchase_category : PurchaseCategory
deriving DecidableEq, Repr

/-- `SearchParameters.to_buy` (src/search.py lines 187-189): assigns
`purchase_category = BUY` on the object itself and returns it. -/
def SearchParameters.to_buy (sp : SearchParameters) : SearchParameters :=
  { sp with purchase_category := .BUY }

/-- `SearchParameters.to_rent` (src/search.py lines 191-193): assigns
`purchase_category = RENT` on the object itself and returns it. -/
def SearchParameters.to_rent (sp : SearchParameters) : SearchParameters :=
  { sp with purchase_category := .RENT }

/-- Renders an optional numeric filter the way the Python constructor stores
it: the number, or the empty string. -/
def optIntStr (o : Option ℤ) : String :=
  match o with
  | none => ""
  | some n => toString n

/-- `SearchParameters._url_property_for_sale` (src/search.py lines 203-216). -/
def url_property_for_sale (sp : SearchParameters) : String :=
  "https://www.rightmove.co.uk/property-for-sale/find.html?" ++
  "locationIdentifier=" ++ sp.location_id ++ "&" ++
  "radius=" ++ toString sp.radius ++ "&" ++
  "minPrice=" ++ optIntStr sp.min_price ++ "&" ++
  "maxPrice=" ++ optIntStr sp.max_price ++ "&" ++
  "minBedrooms=" ++ optIntStr sp.min_bedrooms ++ "&" ++
  "maxBedrooms=" ++ optIntStr sp.max_bedrooms ++ "&" ++
  "maxDaysSinceAdded=" ++ optIntStr sp.max_days_since_added ++ "&" ++
  "propertyTypes=" ++ String.intercalate "," sp.property_types ++ "&" ++
  "mustHave=" ++ String.intercalate "," sp.must_have ++ "&" ++
  "dontShow=" ++ String.intercalate "," sp.dont_show ++ "&" ++
  "includeSSTC=false"

/-- The cache key built by `rank_properties` (src/valuation.py lines 85-86)
from the buy-search URL and the `ValuationParameters` repr. -/
def cache_key (sp : SearchParameters) (vp : ValuationParameters) : String :=
  "valuation:" ++ url_property_for_sale sp.to_buy ++ "-" ++ reprStr vp

/-- `ValuationEngine.rank_properties` (src/valuation.py lines 78-114), with
explicit state passing for the mutated `SearchParameters` and the cache store.
`read_fails` / `write_fails` model exceptions thrown by the cache client;
both are caught by the method.  Returns the ranked valuations, the final
state of the caller's `SearchParameters` object, and the final cache store. -/
def rank_properties (params : SearchParameters) (vp : ValuationParameters)
    (find_properties : SearchParameters → List Property)
    (store : CacheStore) (read_fails : Bool) (write_fails : Bool)
    (g : ℚ → ℚ → GridResult) :
    List Valuation × SearchParameters × CacheStore :=
  let params1 := params.to_buy
  let key := cache_key params vp
  let compute : List Valuation × SearchParameters × CacheStore :=
    let params2 := params1.to_rent
    let rent_properties := find_properties params2
    let params3 := params2.to_buy
    let buy_properties := find_properties params3
    let valuations := _get_valuation rent_properties buy_properties vp g
    let store' :=
      if write_fails then store
      else cache_set store key (_convert_valuations_to_payload valuations) (30 * 60)
    (valuations, params3, store')
  match (if read_fails then none else cache_get store key) with
  | some payload =>
    match _convert_payload_to_valuations payload with
    | .ok vs => (vs, params1, store)
    | .error _ => compute
  | none => compute

/-! Concrete inputs used by the witness theorems below. -/

/-- A concrete coordinate pair. -/
def exampleGeo : GeoLocation := { latitude := 51, longitude := 0 }

/-- A concrete rental listing. -/
def exampleRentProperty : Property :=
  { identifier := "r1", display_address := "1 Rent Street", price := 1000,
    geo_location := exampleGeo, purchase_category := .RENT, image_url := "" }

/-- A concrete purchase listing. -/
def exampleBuyProperty : Property :=
  { identifier := "b1", display_address := "2 Buy Street", price := 200000,
    geo_location := exampleGeo, purchase_category := .BUY, image_url := "i" }

/-- The worked-example valuation parameters of the spec. -/
def vpExample : ValuationParameters :=
  { min_deposit := 0, max_deposit := 40000, mortgage_length := 25,
    mortgage_interest_rate := 3, investment_increase := 0,
    investment_deduction := 0, rent_increase := 0, rent_deduction := 0 }

/-- Valuation parameters with a zero mortgage interest rate. -/
def vpZeroRate : ValuationParameters :=
  { min_deposit := 0, max_deposit := 40000, mortgage_length := 25,
    mortgage_interest_rate := 0, investment_increase := 0,
    investment_deduction := 0, rent_increase := 0, rent_deduction := 0 }

/-- Valuation parameters with a zero net investment cost. -/
def vpZeroCost : ValuationParameters :=
  { min_deposit := 0, max_deposit := 0, mortgage_length := 25,
    mortgage_interest_rate := 3, investment_increase := 0,
    investment_deduction := 0, rent_increase := 0, rent_deduction := 0 }

/-- An interpolation oracle that always reports NaN (query outside the hull). -/
def gridNan : ℚ → ℚ → GridResult := fun _ _ => GridResult.nan

/-- Concrete search parameters. -/
def spExample : SearchParameters :=
  { location_name := "London", location_id := "REGION^87490", radius := 1,
    min_price := none, max_price := none, min_bedrooms := some 1,
    max_bedrooms := some 2, max_days_since_added := none,
    property_types := ["flat"], must_have := [], dont_show := [],
    furnish_types := [], purchase_category := .RENT }

/-- A payload record with every key absent. -/
def emptyPayloadRecord : PayloadRecord :=
  { identifier := none, display_address := none, price := none,
    geo_location := none, purchase_category := none,
    estimated_rental_income := none, return_on_investment := none,
    image_url := none }

/-- A cache store holding a malformed payload under the worked-example key. -/
def malformedStore : CacheStore :=
  fun k => if k = cache_key spExample vpExample then some [emptyPayloadRecord] else none

/-- The empty cache store. -/
def emptyStore : CacheStore := fun _ => none

/-- A concrete valuation with ROI 9.1, first in source order. -/
def valA : Valuation :=
  { property := exampleBuyProperty, estimated_rental_income := 1000,
    return_on_investment := 91 / 10 }

/-- A concrete valuation with ROI 5.0, second in source order. -/
def valB : Valuation :=
  { property := exampleBuyProperty, estimated_rental_income := 900,
    return_on_investment := 5 }

/-- A concrete valuation with ROI 9.1, third in source order. -/
def valC : Valuation :=
  { property := exampleBuyProperty, estimated_rental_income := 1100,
    return_on_investment := 91 / 10 }

/-! ## Theorems -/

/-- C3: every value returned by `remove_outliers` lies within the inclusive
fence `[Q1 − threshold·IQR, Q3 + threshold·IQR]` computed from the
linear-interpolation quartiles of the original input; the output consists of
exactly the input values inside the fence, and is no longer than the input. -/
theorem outlier_filter_bounds (data : List ℚ) (threshold : ℚ)
    (_h : data ≠ []) :
    (∀ x ∈ remove_outliers data threshold,
      percentile data 25 - threshold * (percentile data 75 - percentile data 25) ≤ x ∧
      x ≤ percentile data 75 + threshold * (percentile data 75 - percentile data 25)) ∧
    (∀ x, x ∈ remove_outliers data threshold ↔
      x ∈ data ∧
      (percentile data 25 - threshold * (percentile data 75 - percentile data 25) ≤ x ∧
       x ≤ percentile data 75 + threshold * (percentile data 75 - percentile data 25))) ∧
    (remove_outliers data threshold).length ≤ data.length := by
  have key : ∀ x, x ∈ remove_outliers data threshold ↔
      x ∈ data ∧
      (percentile data 25 - threshold * (percentile data 75 - percentile data 25) ≤ x ∧
       x ≤ percentile data 75 + threshold * (percentile data 75 - percentile data 25)) := by
    intro x
    simp only [remove_outliers, List.mem_filter, Bool.and_eq_true, decide_eq_true_eq]
    rw [mul_comm]
  refine ⟨fun x hx => ((key x).mp hx).2, key, ?_⟩
  simpa [remove_outliers] using
    List.length_filter_le
      (fun x => decide (percentile data 25 -
          (percentile data 75 - percentile data 25) * threshold ≤ x) &&
        decide (x ≤ percentile data 75 +
          (percentile data 75 - percentile data 25) * threshold)) data

/-- C3 witness: the theorem applied to the one-element sample `[5]`. -/
theorem outlier_filter_bounds_witness :
    (remove_outliers [5] (3 / 2)).length ≤ ([(5 : ℚ)] : List ℚ).length :=
  (outlier_filter_bounds [5] (3 / 2) (by decide)).2.2

/-- C7: with empty rental or empty purchase listings the compute path returns
an empty ranked list, and on a cache miss so does the orchestrator. -/
theorem empty_listings_short_circuit :
    (∀ (rent buy : List Property) (vp : ValuationParameters)
        (g : ℚ → ℚ → GridResult),
      rent = [] ∨ buy = [] → _get_valuation rent buy vp g = []) ∧
    (∀ (params : SearchParameters) (vp : ValuationParameters)
        (find : SearchParameters → List Property) (store : CacheStore)
        (w : Bool) (g : ℚ → ℚ → GridResult),
      cache_get store (cache_key params vp) = none →
      (find params.to_buy.to_rent = [] ∨ find params.to_buy.to_rent.to_buy = []) →
      (rank_properties params vp find store false w g).1 = []) := by
  have base : ∀ (rent buy : List Property) (vp : ValuationParameters)
      (g : ℚ → ℚ → GridResult),
      rent = [] ∨ buy = [] → _get_valuation rent buy vp g = [] := by
    intro rent buy vp g h
    unfold _get_valuation
    rcases h with h | h <;> subst h <;> simp
  refine ⟨base, ?_⟩
  intro params vp find store w g hmiss hempty
  have hread : (if false = true then none
      else cache_get store (cache_key params vp)) = none := by
    simpa using hmiss
  simp only [rank_properties, hread]
  exact base _ _ vp g hempty

/-- C7 witness: concrete empty fetches on a concrete cache miss. -/
theorem empty_listings_short_circuit_witness :
    (rank_properties spExample vpExample (fun _ => []) emptyStore false false
      gridNan).1 = [] :=
  empty_listings_short_circuit.2 spExample vpExample (fun _ => []) emptyStore
    false gridNan rfl (Or.inl rfl)

/-- C10: `rank_properties` leaves the caller's `SearchParameters` with
`purchase_category = BUY` and every other field unchanged, whatever category
it held before the call. -/
theorem rank_properties_mutates_params (params : SearchParameters)
    (vp : ValuationParameters) (find : SearchParameters → List Property)
    (store : CacheStore) (r w : Bool) (g : ℚ → ℚ → GridResult) :
    (rank_properties params vp find store r w g).2.1 =
      { params with purchase_category := PurchaseCategory.BUY } := by
  rcases hr : (if r = true then none
      else cache_get store (cache_key params vp)) with _ | payload
  · simp only [rank_properties, hr]
    rfl
  · simp only [rank_properties, hr]
    rcases hp : _convert_payload_to_valuations payload with e | vs
    · simp only [hp]
      rfl
    · simp only [hp]
      rfl

/-- C2: the never-raises claim fails on the program.  `get_height` catches
only `ValueError`, so when `griddata` reports degenerate geometry with a
`QhullError` the exception escapes; the handled outcomes (value, NaN,
`ValueError`) do return a finite value or the mean as claimed. -/
theorem estimate_raises_on_degenerate_geometry (rp : List Property)
    (g : ℚ → ℚ → GriddataOutcome) (x y : ℚ) :
    (g x y = GriddataOutcome.qhullError →
      get_height_exc g (build_estimator rp).average_price x y =
        Except.error PyException.qhullError) ∧
    (∀ v, g x y = GriddataOutcome.val v →
      get_height_exc g (build_estimator rp).average_price x y = Except.ok v) ∧
    ((g x y = GriddataOutcome.nan ∨ g x y = GriddataOutcome.valueError) →
      get_height_exc g (build_estimator rp).average_price x y =
        Except.ok ((rp.map (fun p => p.price)).sum /
          ((rp.map (fun p => p.price)).length : ℚ))) := by
  refine ⟨?_, ?_, ?_⟩
  · intro hq
    unfold get_height_exc
    rw [hq]
  · intro v hv
    unfold get_height_exc
    rw [hv]
  · intro hv
    have : get_height_exc g (build_estimator rp).average_price x y =
        Except.ok (build_estimator rp).average_price := by
      unfold get_height_exc
      rcases hv with hv | hv <;> rw [hv]
    rw [this]
    rfl

/-- C2 witness: the uncaught `QhullError` propagates at a concrete sample. -/
theorem estimate_raises_on_degenerate_geometry_witness :
    get_height_exc (fun _ _ => GriddataOutcome.qhullError)
      (build_estimator [exampleRentProperty]).average_price 3 4 =
      Except.error PyException.qhullError :=
  (estimate_raises_on_degenerate_geometry [exampleRentProperty]
    (fun _ _ => GriddataOutcome.qhullError) 3 4).1 rfl

/-- C5: with exactly one rental listing the padded point set built by
`_get_valuation` is five coincident points — a degenerate geometry on which
`griddata` raises `QhullError` instead of interpolating.  That exception is
not a `ValueError`, so it escapes `get_height` and the program crashes rather
than returning `P`. -/
theorem single_sample_estimate_crashes (pr : Property)
    (g : ℚ → ℚ → GriddataOutcome)
    (hg : ∀ x y, g x y = GriddataOutcome.qhullError) (x y : ℚ) :
    (build_estimator [pr]).points =
      List.replicate 5 (pr.geo_location.longitude, pr.geo_location.latitude) ∧
    get_height_exc g (build_estimator [pr]).average_price x y =
      Except.error PyException.qhullError := by
  constructor
  · simp [build_estimator, listMin, listMax, List.replicate]
  · unfold get_height_exc
    rw [hg x y]

/-- C5 witness: the crash at a concrete single listing and query point. -/
theorem single_sample_estimate_crashes_witness :
    get_height_exc (fun _ _ => GriddataOutcome.qhullError)
      (build_estimator [exampleRentProperty]).average_price 1 2 =
      Except.error PyException.qhullError :=
  (single_sample_estimate_crashes exampleRentProperty
    (fun _ _ => GriddataOutcome.qhullError) (fun _ _ => rfl) 1 2).2

/-- C6: a zero mortgage rate makes `get_score` fail with the degenerate-rate
error, a zero net investment cost with the degenerate-cost error, and a
candidate whose scoring fails is dropped from the ranking while the rest of
the batch is processed unchanged. -/
theorem degenerate_score_failures :
    (∀ (rent_price property_price : ℚ) (vp : ValuationParameters),
      vp.mortgage_interest_rate = 0 →
      get_score rent_price property_price vp =
        Except.error ScoreError.degenerateRate) ∧
    (∀ (rent_price property_price : ℚ) (vp : ValuationParameters),
      vp.mortgage_interest_rate ≠ 0 →
      (vp.max_deposit : ℚ) +
        ((vp.investment_increase : ℚ) - (vp.investment_deduction : ℚ)) = 0 →
      get_score rent_price property_price vp =
        Except.error ScoreError.degenerateCost) ∧
    (∀ (rent_properties : List Property) (vp : ValuationParameters)
        (g : ℚ → ℚ → GridResult) (pre post : List Property) (bad : Property)
        (err : ScoreError),
      get_score
          (get_height g (build_estimator (filtered_rent rent_properties)).average_price
            bad.geo_location.longitude bad.geo_location.latitude)
          bad.price vp = Except.error err →
      _get_valuation rent_properties (pre ++ bad :: post) vp g =
        _get_valuation rent_properties (pre ++ post) vp g) := by
  refine ⟨?_, ?_, ?_⟩
  · intro rent_price property_price vp h
    simp [get_score, h]
  · intro rent_price property_price vp h1 h2
    have hr : vp.mortgage_interest_rate / (12 * 100) ≠ 0 := by
      intro hc
      rcases div_eq_zero_iff.mp hc with h | h
      · exact h1 h
      · norm_num at h
    simp [get_score, hr, h2]
  · intro rent_properties vp g pre post bad err h
    have hbad : valuation_of rent_properties g vp bad = none := by
      simp only [valuation_of]
      rw [h]
    by_cases hrent : rent_properties.length = 0
    · unfold _get_valuation
      rw [if_pos (Or.inl hrent), if_pos (Or.inl hrent)]
    · by_cases hpp : (pre ++ post).length = 0
      · unfold _get_valuation
        rw [if_neg (by simp [hrent]), if_pos (Or.inr hpp)]
        obtain ⟨hpre, hpost⟩ := List.append_eq_nil.mp (List.length_eq_zero.mp hpp)
        subst hpre
        subst hpost
        simp [rank, hbad]
      · unfold _get_valuation
        rw [if_neg (fun hor => hor.elim hrent (by simp)),
          if_neg (fun hor => hor.elim hrent hpp)]
        congr 1
        simp [List.filterMap_append, hbad]

/-- C6 witness: a zero-rate failure, a zero-cost failure, and the exclusion of
a single zero-rate candidate from a concrete batch. -/
theorem degenerate_score_failures_witness :
    get_score 1000 200000 vpZeroRate = Except.error ScoreError.degenerateRate ∧
    get_score 1000 200000 vpZeroCost = Except.error ScoreError.degenerateCost ∧
    _get_valuation [exampleRentProperty] ([] ++ exampleBuyProperty :: []) vpZeroRate gridNan =
      _get_valuation [exampleRentProperty] ([] ++ []) vpZeroRate gridNan :=
  ⟨degenerate_score_failures.1 1000 200000 vpZeroRate rfl,
   degenerate_score_failures.2.1 1000 200000 vpZeroCost (by norm_num [vpZeroCost])
     (by norm_num [vpZeroCost]),
   degenerate_score_failures.2.2 [exampleRentProperty] vpZeroRate gridNan [] []
     exampleBuyProperty ScoreError.degenerateRate
     (degenerate_score_failures.1 _ _ vpZeroRate rfl)⟩

/-- C8: serializing a valuation list, storing it in the cache, reading it back
and deserializing it returns the identical list; deserialization is a left
inverse of serialization. -/
theorem cache_round_trip (store : CacheStore) (key : String) (expiry : ℕ)
    (vs : List Valuation) :
    cache_get (cache_set store key (_convert_valuations_to_payload vs) expiry) key =
      some (_convert_valuations_to_payload vs) ∧
    _convert_payload_to_valuations (_convert_valuations_to_payload vs) =
      Except.ok vs := by
  constructor
  · simp [cache_get, cache_set]
  · have hone : ∀ v : Valuation,
        convert_obj_to_valuation
          { identifier := some v.property.identifier,
            display_address := some v.property.display_address,
            price := some v.property.price,
            geo_location := some
              { latitude := some v.property.geo_location.latitude,
                longitude := some v.property.geo_location.longitude },
            purchase_category := some v.property.purchase_category.value,
            estimated_rental_income := some v.estimated_rental_income,
            return_on_investment := some v.return_on_investment,
            image_url := some v.property.image_url } = Except.ok v := by
      intro v
      obtain ⟨⟨id, addr, price, ⟨lat, lon⟩, cat, img⟩, eri, roi⟩ := v
      cases cat <;>
        simp [convert_obj_to_valuation, parse_purchase_category,
          PurchaseCategory.value]
    induction vs with
    | nil => rfl
    | cons v tl ih =>
      simp only [_convert_valuations_to_payload, List.map_cons] at ih ⊢
      simp only [_convert_payload_to_valuations, hone v, ih]

/-- C9: a cache read failure, or a cached payload rejected by the
deserializer, is treated as a miss and the result is recomputed; the cache
write outcome never changes the returned ranked list. -/
theorem cache_failures_recovered (params : SearchParameters)
    (vp : ValuationParameters) (find : SearchParameters → List Property)
    (store : CacheStore) (r w : Bool) (g : ℚ → ℚ → GridResult) :
    ((rank_properties params vp find store true w g).1 =
      _get_valuation (find params.to_buy.to_rent)
        (find params.to_buy.to_rent.to_buy) vp g) ∧
    (∀ (payload : List PayloadRecord) (err : String),
      cache_get store (cache_key params vp) = some payload →
      _convert_payload_to_valuations payload = Except.error err →
      (rank_properties params vp find store false w g).1 =
        _get_valuation (find params.to_buy.to_rent)
          (find params.to_buy.to_rent.to_buy) vp g) ∧
    ((rank_properties params vp find store r true g).1 =
      (rank_properties params vp find store r false g).1) := by
  refine ⟨?_, ?_, ?_⟩
  · rfl
  · intro payload err hget hconv
    have hread : (if false = true then none
        else cache_get store (cache_key params vp)) = some payload := by
      simpa using hget
    simp only [rank_properties, hread, hconv]
  · rcases hr : (if r = true then none
        else cache_get store (cache_key params vp)) with _ | payload
    · simp only [rank_properties, hr]
    · simp only [rank_properties, hr]
      rcases hp : _convert_payload_to_valuations payload with e | vs2
      · simp only [hp]
      · simp only [hp]

/-- C9 witness: a concrete malformed cached payload (all keys absent) is
recovered as a miss and the result recomputed. -/
theorem cache_failures_recovered_witness :
    (rank_properties spExample vpExample (fun _ => []) malformedStore false false
      gridNan).1 =
      _get_valuation ((fun _ => ([] : List Property)) spExample.to_buy.to_rent)
        ((fun _ => ([] : List Property)) spExample.to_buy.to_rent.to_buy)
        vpExample gridNan :=
  (cache_failures_recovered spExample vpExample (fun _ => []) malformedStore
      false false gridNan).2.1 [emptyPayloadRecord]
    "property object is missing identifier key"
    (by unfold cache_get malformedStore; rw [if_pos rfl]) rfl

/-- C4: the ranked output is sorted by `return_on_investment` descending, is a
permutation of its input, and the sort is stable: candidates with equal ROI
keep the relative order of the input; in particular source order
[A(9.1), B(5.0), C(9.1)] ranks as [A, C, B]. -/
theorem ranking_sorted_stable :
    (∀ vs : List Valuation,
      (rank vs).Pairwise
        (fun a b => b.return_on_investment ≤ a.return_on_investment) ∧
      (rank vs).Perm vs ∧
      (∀ ws : List Valuation, ws.Sublist vs →
        ws.Pairwise (fun a b => a.return_on_investment = b.return_on_investment) →
        ws.Sublist (rank vs))) ∧
    (∀ A B C : Valuation,
      A.return_on_investment = 91 / 10 → B.return_on_investment = 5 →
      C.return_on_investment = 91 / 10 → rank [A, B, C] = [A, C, B]) := by
  have htrans : ∀ a b c : Valuation,
      (fun a b : Valuation => decide (b.return_on_investment ≤ a.return_on_investment)) a b →
      (fun a b : Valuation => decide (b.return_on_investment ≤ a.return_on_investment)) b c →
      (fun a b : Valuation => decide (b.return_on_investment ≤ a.return_on_investment)) a c := by
    intro a b c hab hbc
    simp only [decide_eq_true_eq] at *
    exact le_trans hbc hab
  have htotal : ∀ a b : Valuation,
      ((fun a b : Valuation => decide (b.return_on_investment ≤ a.return_on_investment)) a b ||
       (fun a b : Valuation => decide (b.return_on_investment ≤ a.return_on_investment)) b a) := by
    intro a b
    rcases le_total b.return_on_investment a.return_on_investment with h | h <;> simp [h]
  constructor
  · intro vs
    refine ⟨?_, List.mergeSort_perm vs _, ?_⟩
    · have h := List.sorted_mergeSort htrans htotal vs
      exact h.imp (fun hab => by simpa using hab)
    · intro ws hsub heq
      apply List.sublist_mergeSort htrans htotal ?_ hsub
      exact heq.imp (fun hab => by simp [hab.ge])
  · intro A B C hA hB hC
    have hAC : (fun a b : Valuation =>
        decide (b.return_on_investment ≤ a.return_on_investment)) A C = true := by
      simp [hA, hC]
    have hBC : (fun a b : Valuation =>
        decide (b.return_on_investment ≤ a.return_on_investment)) B C = false := by
      simp [hB, hC]
      norm_num
    have pAB : B.return_on_investment ≤ A.return_on_investment := by
      rw [hA, hB]
      norm_num
    have e2 : List.mergeSort [A, B] (fun a b : Valuation =>
        decide (b.return_on_investment ≤ a.return_on_investment)) = [A, B] :=
      List.mergeSort_of_sorted (by simp [List.pairwise_cons, pAB])
    have e3 : List.merge [A, B] [C] (fun a b : Valuation =>
        decide (b.return_on_investment ≤ a.return_on_investment)) = [A, C, B] := by
      simp [List.merge, hAC, hBC]
    unfold rank
    rw [List.mergeSort]
    simp only [List.splitInTwo_fst, List.splitInTwo_snd]
    norm_num
    rw [e2]
    exact e3

/-- C4 witness: the tie [A(9.1), B(5.0), C(9.1)] ranks as [A, C, B]. -/
theorem ranking_sorted_stable_witness : rank [valA, valB, valC] = [valA, valC, valB] :=
  ranking_sorted_stable.2 valA valB valC rfl rfl rfl

/-- C1: for the worked example (purchase 200000, deposit 40000, 3% over 25
years, zero adjustments, estimated rent 1000) the scorer returns an ROI within
±0.05 of 7.24, with a monthly payment near 758.8 and a net annual income near
2894.4 (exact values: monthly ≈ 758.738, net ≈ 2895.14, ROI exactly 7.24
after rounding). -/
theorem roi_worked_example :
    ∃ roi : ℚ,
      get_score 1000 200000 vpExample = Except.ok roi ∧
      |roi - 7.24| ≤ 0.05 ∧
      |monthly_mortgage 160000 (3 / 1200) 300 - 758.8| ≤ 0.1 ∧
      |(1000 - monthly_mortgage 160000 (3 / 1200) 300) * 12 - 2894.4| ≤ 1 := by
  have k1 : (3035 : ℕ) * 400 ^ 300 < 1435 * 401 ^ 300 := by norm_num
  have k2 : (35873 : ℕ) * 401 ^ 300 < 75873 * 400 ^ 300 := by norm_num
  have q1 : (3035 : ℚ) * 400 ^ 300 < 1435 * 401 ^ 300 := by exact_mod_cast k1
  have q2 : (35873 : ℚ) * 401 ^ 300 < 75873 * 400 ^ 300 := by exact_mod_cast k2
  have hBpos : (0 : ℚ) < 400 ^ 300 := by positivity
  have hBA : (400 : ℚ) ^ 300 < 401 ^ 300 := by
    apply pow_lt_pow_left₀ (by norm_num) (by norm_num)
    norm_num
  have hdpos : (0 : ℚ) < 401 ^ 300 - 400 ^ 300 := by linarith
  have hY : (0 : ℚ) < (401 : ℚ) ^ 300 / (400 : ℚ) ^ 300 - 1 := by
    rw [sub_pos, lt_div_iff₀ hBpos, one_mul]
    exact hBA
  have hMform : monthly_mortgage 160000 (3 / 1200) 300 =
      400 * (401 : ℚ) ^ 300 / ((401 : ℚ) ^ 300 - (400 : ℚ) ^ 300) := by
    unfold monthly_mortgage
    have h1 : (1 + 3 / 1200 : ℚ) = 401 / 400 := by norm_num
    rw [h1, div_pow]
    rw [div_eq_div_iff (ne_of_gt hY) (ne_of_gt hdpos)]
    field_simp
    ring
  have hMu : monthly_mortgage 160000 (3 / 1200) 300 < 3035 / 4 := by
    rw [hMform, div_lt_iff₀ hdpos]
    linarith
  have hMl : (75873 : ℚ) / 100 < monthly_mortgage 160000 (3 / 1200) 300 := by
    rw [hMform, lt_div_iff₀ hdpos]
    linarith
  have hargs : monthly_mortgage (max ((200000 : ℚ) - ((40000 : ℤ) : ℚ)) 0)
      ((3 : ℚ) / (12 * 100)) (25 * 12) = monthly_mortgage 160000 (3 / 1200) 300 := by
    norm_num
  have hscore : get_score 1000 200000 vpExample =
      Except.ok (pyRound2 (100 * ((1000 + (((0 : ℤ) : ℚ) - ((0 : ℤ) : ℚ)) -
        monthly_mortgage (max ((200000 : ℚ) - ((40000 : ℤ) : ℚ)) 0)
          ((3 : ℚ) / (12 * 100)) (25 * 12)) * 12) /
        (((40000 : ℤ) : ℚ) + (((0 : ℤ) : ℚ) - ((0 : ℤ) : ℚ))))) := by
    unfold get_score vpExample
    rw [if_neg (by norm_num), if_neg (by norm_num)]
  have hargval : (100 * ((1000 + (((0 : ℤ) : ℚ) - ((0 : ℤ) : ℚ)) -
      monthly_mortgage (max ((200000 : ℚ) - ((40000 : ℤ) : ℚ)) 0)
        ((3 : ℚ) / (12 * 100)) (25 * 12)) * 12) /
      (((40000 : ℤ) : ℚ) + (((0 : ℤ) : ℚ) - ((0 : ℤ) : ℚ)))) =
      30 - (3 / 100) * monthly_mortgage 160000 (3 / 1200) 300 := by
    rw [hargs]
    push_cast
    ring
  set M := monthly_mortgage 160000 (3 / 1200) 300 with hMdef
  have hfloor : ⌊(30 - (3 / 100) * M) * 100⌋ = 723 := by
    rw [Int.floor_eq_iff]
    constructor
    · push_cast
      linarith
    · push_cast
      linarith
  have hpy : pyRound2 (30 - (3 / 100) * M) = 724 / 100 := by
    simp only [pyRound2, hfloor]
    rw [if_neg (by push_cast; linarith), if_pos (by push_cast; linarith)]
    norm_num
  refine ⟨pyRound2 (30 - (3 / 100) * M), ?_, ?_, ?_, ?_⟩
  · rw [hscore, hargval]
  · rw [hpy]
    norm_num
  · rw [abs_le]
    constructor <;> linarith
  · rw [abs_le]
    constructor <;> linarith

end PropertySearch
